import Mathlib

/-!
Shallow embedding of `src/ImageView.py` (manuq/imageviewer), an image
viewer widget maintaining a view transform (zoom factor, anchor point in
image space, target point in screen space) updated by gesture callbacks.

Numeric values (Python floats / ints) are modelled as rationals `ℚ`;
Python's `int(...)` truncation toward zero is `pyInt`.  The widget's
mutable attributes become fields of `ViewerState`; each method becomes a
state-passing function.  The parent allocation, read through
`get_parent().get_allocation()`, is an explicit argument of the
operations that consult it.  `queue_draw` is modelled as a redraw-request
counter.  The states modelled are the initialised ones (surface loaded,
zoom / anchor / target set), on which all gesture callbacks operate; the
lazy-initialisation branches of the draw callback fill those fields before
any transform is computed.
-/

namespace ImageView

/-- ZOOM_STEP = 0.05 (ImageView.py line 27). -/
def ZOOM_STEP : ℚ := 1/20

/-- ZOOM_MAX = 4 (ImageView.py line 28). -/
def ZOOM_MAX : ℚ := 4

/-- ZOOM_MIN = 0.05 (ImageView.py line 29). -/
def ZOOM_MIN : ℚ := 1/20

/-- Python `int(...)`: truncation toward zero. -/
def pyInt (q : ℚ) : ℤ := if q < 0 then ⌈q⌉ else ⌊q⌋

/-- The parent widget's allocation, as read via
`self.get_parent().get_allocation()`. -/
structure Allocation where
  x : ℚ
  y : ℚ
  width : ℚ
  height : ℚ
deriving DecidableEq

/-- The cairo image surface: only its width and height are observable in
the view-geometry model. -/
structure Surface where
  width : ℚ
  height : ℚ
deriving DecidableEq

/-- The mutable attributes of the `ImageViewer` widget (lines 67-75),
restricted to initialised states.  `size_request` records the last
`set_size_request` call; `redraws` counts `queue_draw` calls. -/
structure ViewerState where
  file_location : Option String
  surface : Surface
  zoom : ℚ
  target_point : ℚ × ℚ
  anchor_point : ℚ × ℚ
  in_dragtouch : Bool
  in_zoomtouch : Bool
  zoomtouch_scale : ℚ
  size_request : ℤ × ℤ
  redraws : ℕ
deriving DecidableEq

/-- A 2D point transform, as effected by a cairo transformation matrix. -/
def Transform : Type := (ℚ × ℚ) → (ℚ × ℚ)

/-- `ctx.translate(dx, dy)` as a point map. -/
def translate (dx dy : ℚ) : Transform := fun p => (p.1 + dx, p.2 + dy)

/-- `ctx.scale(sx, sy)` as a point map. -/
def scale (sx sy : ℚ) : Transform := fun p => (sx * p.1, sy * p.2)

/-- `self.queue_draw()`: request a redraw. -/
def queue_draw (s : ViewerState) : ViewerState :=
  { s with redraws := s.redraws + 1 }

/-- `set_file_location` (lines 79-81). -/
def set_file_location (l : String) (s : ViewerState) : ViewerState :=
  queue_draw { s with file_location := some l }

/-- `_center_target_point` (lines 83-85). -/
def _center_target_point (alloc : Allocation) (s : ViewerState) : ViewerState :=
  { s with target_point := (alloc.width / 2, alloc.height / 2) }

/-- `_center_anchor_point` (lines 87-89). -/
def _center_anchor_point (s : ViewerState) : ViewerState :=
  { s with anchor_point := (s.surface.width / 2, s.surface.height / 2) }

/-- `_center_if_small` (lines 91-103): if at the current zoom the image
surface is no larger than the available space, center it. -/
def _center_if_small (alloc : Allocation) (s : ViewerState) : ViewerState :=
  let scaled_width := s.surface.width * s.zoom
  let scaled_height := s.surface.height * s.zoom
  if scaled_width ≤ alloc.width ∧ scaled_height ≤ alloc.height then
    queue_draw (_center_anchor_point (_center_target_point alloc s))
  else
    s

/-- `_do_set_zoom` (lines 105-111): store the zoom and update the
requested size. -/
def _do_set_zoom (z : ℚ) (s : ViewerState) : ViewerState :=
  let s1 := { s with zoom := z }
  { s1 with size_request := (pyInt (s1.surface.width * s1.zoom),
                             pyInt (s1.surface.height * s1.zoom)) }

/-- `set_zoom` (lines 113-116). -/
def set_zoom (z : ℚ) (s : ViewerState) : ViewerState :=
  if z < ZOOM_MIN ∨ z > ZOOM_MAX then s else _do_set_zoom z s

/-- `can_zoom_in` (lines 121-122). -/
def can_zoom_in (s : ViewerState) : Bool := s.zoom + ZOOM_STEP < ZOOM_MAX

/-- `can_zoom_out` (lines 124-125). -/
def can_zoom_out (s : ViewerState) : Bool := ZOOM_MIN < s.zoom - ZOOM_STEP

/-- `zoom_in` (lines 127-130). -/
def zoom_in (s : ViewerState) : ViewerState :=
  if !can_zoom_in s then s else _do_set_zoom (s.zoom + ZOOM_STEP) s

/-- `zoom_out` (lines 132-136). -/
def zoom_out (alloc : Allocation) (s : ViewerState) : ViewerState :=
  if !can_zoom_out s then s
  else _center_if_small alloc (_do_set_zoom (s.zoom - ZOOM_STEP) s)

/-- `zoom_to_fit` (lines 138-158). -/
def zoom_to_fit (alloc : Allocation) (s : ViewerState) : ViewerState :=
  let surface_width := s.surface.width
  let surface_height := s.surface.height
  let z : ℚ :=
    if alloc.width < surface_width ∨ alloc.height < surface_height then
      min (alloc.width / surface_width) (alloc.height / surface_height)
    else 1
  queue_draw (_center_anchor_point (_center_target_point alloc (_do_set_zoom z s)))

/-- `zoom_original` (lines 160-162). -/
def zoom_original (alloc : Allocation) (s : ViewerState) : ViewerState :=
  _center_if_small alloc (_do_set_zoom 1 s)

/-- `start_dragtouch` (lines 164-188).  The event tuple's components
`coords[1]`, `coords[2]` carry the position; the allocation fetched at
line 170 is unused by the source and hence omitted. -/
def start_dragtouch (coords : ℚ × ℚ × ℚ) (s : ViewerState) : ViewerState :=
  let s1 := { s with in_dragtouch := true }
  let prev_target_point := s1.target_point
  let s2 := { s1 with target_point := (coords.2.1, coords.2.2) }
  let prev_anchor_scaled := (s2.anchor_point.1 * s2.zoom,
                             s2.anchor_point.2 * s2.zoom)
  let scaled_image_topleft := (prev_target_point.1 - prev_anchor_scaled.1,
                               prev_target_point.2 - prev_anchor_scaled.2)
  let anchor_scaled := (s2.target_point.1 - scaled_image_topleft.1,
                        s2.target_point.2 - scaled_image_topleft.2)
  let s3 := { s2 with anchor_point := ((pyInt (anchor_scaled.1 / s2.zoom) : ℚ),
                                       (pyInt (anchor_scaled.2 / s2.zoom) : ℚ)) }
  queue_draw s3

/-- `update_dragtouch` (lines 190-201): if no drag gesture is active,
start one; otherwise move the target point. -/
def update_dragtouch (coords : ℚ × ℚ × ℚ) (s : ViewerState) : ViewerState :=
  if !s.in_dragtouch then start_dragtouch coords s
  else queue_draw { s with target_point := (coords.2.1, coords.2.2) }

/-- `finish_dragtouch` (lines 203-205); its `coords` argument is unused
by the source. -/
def finish_dragtouch (alloc : Allocation) (s : ViewerState) : ViewerState :=
  _center_if_small alloc { s with in_dragtouch := false }

/-- `start_zoomtouch` (lines 207-235). -/
def start_zoomtouch (center : ℚ × ℚ × ℚ) (alloc : Allocation)
    (s : ViewerState) : ViewerState :=
  let s1 := { s with in_zoomtouch := true, zoomtouch_scale := 1,
                     in_dragtouch := false }
  let prev_target_point := s1.target_point
  let s2 := { s1 with target_point := (center.2.1 - alloc.x,
                                       center.2.2 - alloc.y) }
  let prev_anchor_scaled := (s2.anchor_point.1 * s2.zoom,
                             s2.anchor_point.2 * s2.zoom)
  let scaled_image_topleft := (prev_target_point.1 - prev_anchor_scaled.1,
                               prev_target_point.2 - prev_anchor_scaled.2)
  let anchor_scaled := (s2.target_point.1 - scaled_image_topleft.1,
                        s2.target_point.2 - scaled_image_topleft.2)
  let s3 := { s2 with anchor_point := ((pyInt (anchor_scaled.1 / s2.zoom) : ℚ),
                                       (pyInt (anchor_scaled.2 / s2.zoom) : ℚ)) }
  queue_draw s3

/-- `update_zoomtouch` (lines 237-244). -/
def update_zoomtouch (center : ℚ × ℚ × ℚ) (sc : ℚ) (alloc : Allocation)
    (s : ViewerState) : ViewerState :=
  queue_draw { s with zoomtouch_scale := sc,
                      target_point := (center.2.1 - alloc.x,
                                       center.2.2 - alloc.y) }

/-- `finish_zoomtouch` (lines 246-260): apply the accumulated pinch
scale, restricting the result to the zoom range. -/
def finish_zoomtouch (alloc : Allocation) (s : ViewerState) : ViewerState :=
  let s1 := { s with in_zoomtouch := false }
  let z := s1.zoom * s1.zoomtouch_scale
  let s2 := { s1 with zoomtouch_scale := 1 }
  let z2 := if z < ZOOM_MIN then ZOOM_MIN
            else if z > ZOOM_MAX then ZOOM_MAX
            else z
  _center_if_small alloc (_do_set_zoom z2 s2)

/-- `_rotate_surface` (lines 43-61): the rotated surface swaps width and
height (the `create_similar` call receives height, width). -/
def _rotate_surface (surface : Surface) (direction : ℤ) : Surface :=
  { width := surface.height, height := surface.width }

/-- Exact point map of `ctx_surface.rotate(math.pi / 2 * direction)` for
`direction = 1` or `-1` (line 56): a quarter turn. -/
def rotate_quarter (direction : ℤ) : Transform :=
  fun p => if direction = 1 then (-p.2, p.1) else (p.2, -p.1)

/-- The source-to-destination point map set up by `_rotate_surface`
(lines 51-56): a translate (line 52 or 54) composed with the quarter
turn of line 56. -/
def _rotate_surface_map (surface : Surface) (direction : ℤ) : Transform :=
  (if direction = 1 then translate surface.height 0
   else translate 0 surface.width) ∘ rotate_quarter direction

/-- `rotate_anticlockwise` (lines 262-271). -/
def rotate_anticlockwise (s : ViewerState) : ViewerState :=
  let surface := _rotate_surface s.surface (-1)
  queue_draw { s with
    surface := surface,
    anchor_point := (s.anchor_point.2, surface.height - s.anchor_point.1) }

/-- `rotate_clockwise` (lines 273-282). -/
def rotate_clockwise (s : ViewerState) : ViewerState :=
  let surface := _rotate_surface s.surface 1
  queue_draw { s with
    surface := surface,
    anchor_point := (surface.width - s.anchor_point.2, s.anchor_point.1) }

/-- The cairo transform built by `__draw_cb` (lines 307-312):
`translate(target)`, `scale(zoom * zoomtouch_scale)`,
`translate(-anchor)`; a user-space point passes through them
innermost-last. -/
def draw_transform (s : ViewerState) : Transform :=
  translate s.target_point.1 s.target_point.2 ∘
    scale (s.zoom * s.zoomtouch_scale) (s.zoom * s.zoomtouch_scale) ∘
      translate (s.anchor_point.1 * (-1)) (s.anchor_point.2 * (-1))

/-- The scaled image fits the allocation in both dimensions
(the condition of `_center_if_small`, line 100). -/
def fits (alloc : Allocation) (s : ViewerState) : Prop :=
  s.surface.width * s.zoom ≤ alloc.width ∧
    s.surface.height * s.zoom ≤ alloc.height

/-- The target point is the allocation center and the anchor point is the
surface center. -/
def centered (alloc : Allocation) (s : ViewerState) : Prop :=
  s.target_point = (alloc.width / 2, alloc.height / 2) ∧
    s.anchor_point = (s.surface.width / 2, s.surface.height / 2)

/-! ### Projection lemmas -/

@[simp] theorem do_set_zoom_zoom (z : ℚ) (s : ViewerState) :
    (_do_set_zoom z s).zoom = z := rfl

@[simp] theorem do_set_zoom_surface (z : ℚ) (s : ViewerState) :
    (_do_set_zoom z s).surface = s.surface := rfl

@[simp] theorem do_set_zoom_target_point (z : ℚ) (s : ViewerState) :
    (_do_set_zoom z s).target_point = s.target_point := rfl

@[simp] theorem do_set_zoom_anchor_point (z : ℚ) (s : ViewerState) :
    (_do_set_zoom z s).anchor_point = s.anchor_point := rfl

@[simp] theorem do_set_zoom_in_dragtouch (z : ℚ) (s : ViewerState) :
    (_do_set_zoom z s).in_dragtouch = s.in_dragtouch := rfl

@[simp] theorem do_set_zoom_in_zoomtouch (z : ℚ) (s : ViewerState) :
    (_do_set_zoom z s).in_zoomtouch = s.in_zoomtouch := rfl

@[simp] theorem do_set_zoom_zoomtouch_scale (z : ℚ) (s : ViewerState) :
    (_do_set_zoom z s).zoomtouch_scale = s.zoomtouch_scale := rfl

@[simp] theorem do_set_zoom_file_location (z : ℚ) (s : ViewerState) :
    (_do_set_zoom z s).file_location = s.file_location := rfl

@[simp] theorem center_if_small_zoom (alloc : Allocation) (s : ViewerState) :
    (_center_if_small alloc s).zoom = s.zoom := by
  simp only [_center_if_small]
  split <;> simp [queue_draw, _center_anchor_point, _center_target_point]

@[simp] theorem center_if_small_surface (alloc : Allocation) (s : ViewerState) :
    (_center_if_small alloc s).surface = s.surface := by
  simp only [_center_if_small]
  split <;> simp [queue_draw, _center_anchor_point, _center_target_point]

@[simp] theorem center_if_small_in_dragtouch (alloc : Allocation) (s : ViewerState) :
    (_center_if_small alloc s).in_dragtouch = s.in_dragtouch := by
  simp only [_center_if_small]
  split <;> simp [queue_draw, _center_anchor_point, _center_target_point]

@[simp] theorem center_if_small_in_zoomtouch (alloc : Allocation) (s : ViewerState) :
    (_center_if_small alloc s).in_zoomtouch = s.in_zoomtouch := by
  simp only [_center_if_small]
  split <;> simp [queue_draw, _center_anchor_point, _center_target_point]

@[simp] theorem center_if_small_zoomtouch_scale (alloc : Allocation)
    (s : ViewerState) :
    (_center_if_small alloc s).zoomtouch_scale = s.zoomtouch_scale := by
  simp only [_center_if_small]
  split <;> simp [queue_draw, _center_anchor_point, _center_target_point]

@[simp] theorem center_if_small_size_request (alloc : Allocation)
    (s : ViewerState) :
    (_center_if_small alloc s).size_request = s.size_request := by
  simp only [_center_if_small]
  split <;> simp [queue_draw, _center_anchor_point, _center_target_point]

@[simp] theorem center_if_small_file_location (alloc : Allocation)
    (s : ViewerState) :
    (_center_if_small alloc s).file_location = s.file_location := by
  simp only [_center_if_small]
  split <;> simp [queue_draw, _center_anchor_point, _center_target_point]

/-! ### Claim theorems -/

/-- C1: `set_zoom z` with z < 0.05 or z > 4.0 is silently ignored and the
state — zoom, anchor point, target point, gesture flags, requested size —
is completely unchanged; with 0.05 ≤ z ≤ 4.0 the stored zoom becomes
exactly z. -/
theorem C1_set_zoom_range (z : ℚ) (s : ViewerState) :
    ((z < ZOOM_MIN ∨ z > ZOOM_MAX) → set_zoom z s = s) ∧
      (ZOOM_MIN ≤ z → z ≤ ZOOM_MAX → (set_zoom z s).zoom = z) := by
  refine ⟨fun h => ?_, fun h1 h2 => ?_⟩
  · simp only [set_zoom, if_pos h]
  · have hc : ¬ (z < ZOOM_MIN ∨ z > ZOOM_MAX) := by
      push_neg
      exact ⟨h1, h2⟩
    simp only [set_zoom, if_neg hc, do_set_zoom_zoom]

/-- Witness for C1 at the ignored zoom 5 and the stored zoom 2. -/
theorem C1_set_zoom_range_witness :
    let s : ViewerState := ⟨none, ⟨100, 80⟩, 1, (3, 4), (5, 6), false, false, 1,
      (100, 80), 0⟩
    set_zoom 5 s = s ∧ (set_zoom 2 s).zoom = 2 := by
  intro s
  exact ⟨(C1_set_zoom_range 5 s).1 (Or.inr (by norm_num [ZOOM_MAX])),
         (C1_set_zoom_range 2 s).2 (by norm_num [ZOOM_MIN]) (by norm_num [ZOOM_MAX])⟩

/-- C3 counterexample: with zoom 1 and accumulated pinch scale 8 the
requested zoom 8 is above ZOOM_MAX, yet `finish_zoomtouch` does not leave
the zoom at 1 — it clamps the request to 4. -/
theorem C3_counterexample :
    let s : ViewerState := ⟨none, ⟨100, 80⟩, 1, (3, 4), (5, 6), false, true, 8,
      (100, 80), 0⟩
    s.zoom * s.zoomtouch_scale > ZOOM_MAX ∧
      (finish_zoomtouch ⟨0, 0, 1000, 1000⟩ s).zoom ≠ s.zoom := by
  simp only [finish_zoomtouch, center_if_small_zoom, do_set_zoom_zoom]
  norm_num [ZOOM_MIN, ZOOM_MAX]

/-- C3 (amended): when a pinch-zoom gesture finishes the resulting zoom
z * s is clamped into [ZOOM_MIN, ZOOM_MAX] (out-of-range results are not
ignored but clamped to the nearest bound); an in-range result is stored
exactly, and in every case the zoom-touch flag is cleared and the pending
pinch scale reset to 1. -/
theorem C3_finish_zoomtouch_clamps (alloc : Allocation) (s : ViewerState) :
    (finish_zoomtouch alloc s).in_zoomtouch = false ∧
    (finish_zoomtouch alloc s).zoomtouch_scale = 1 ∧
    (finish_zoomtouch alloc s).zoom =
      (if s.zoom * s.zoomtouch_scale < ZOOM_MIN then ZOOM_MIN
       else if s.zoom * s.zoomtouch_scale > ZOOM_MAX then ZOOM_MAX
       else s.zoom * s.zoomtouch_scale) := by
  simp [finish_zoomtouch]

/-- C4: the transform built by the draw callback maps an image-space
point p to target + (zoom * zoomtouch_scale) * (p - anchor); in
particular the anchor point is rendered exactly at the target point. -/
theorem C4_draw_maps_anchor_to_target (s : ViewerState) (p : ℚ × ℚ) :
    draw_transform s p =
      (s.target_point.1 + s.zoom * s.zoomtouch_scale * (p.1 - s.anchor_point.1),
       s.target_point.2 + s.zoom * s.zoomtouch_scale * (p.2 - s.anchor_point.2)) ∧
    draw_transform s s.anchor_point = s.target_point := by
  constructor
  · simp only [draw_transform, Function.comp, translate, scale, Prod.ext_iff]
    constructor <;> ring
  · simp only [draw_transform, Function.comp, translate, scale, Prod.ext_iff]
    constructor <;> ring

/-- C5: `rotate_clockwise` replaces the anchor (a0, a1) by
(H - a1, a0) — the image of the old anchor under the quarter-turn point
map set up by `_rotate_surface` for direction 1 — and
`rotate_anticlockwise` replaces it by (a1, W - a0), the image under the
opposite quarter-turn; both swap the surface's width and height. -/
theorem C5_rotate_anchor_follows_quarter_turn (s : ViewerState) :
    ((rotate_clockwise s).anchor_point =
        (s.surface.height - s.anchor_point.2, s.anchor_point.1) ∧
      (rotate_clockwise s).anchor_point =
        _rotate_surface_map s.surface 1 s.anchor_point ∧
      (rotate_clockwise s).surface.width = s.surface.height ∧
      (rotate_clockwise s).surface.height = s.surface.width) ∧
    ((rotate_anticlockwise s).anchor_point =
        (s.anchor_point.2, s.surface.width - s.anchor_point.1) ∧
      (rotate_anticlockwise s).anchor_point =
        _rotate_surface_map s.surface (-1) s.anchor_point ∧
      (rotate_anticlockwise s).surface.width = s.surface.height ∧
      (rotate_anticlockwise s).surface.height = s.surface.width) := by
  refine ⟨⟨rfl, ?_, rfl, rfl⟩, ⟨rfl, ?_, rfl, rfl⟩⟩
  · show (s.surface.height - s.anchor_point.2, s.anchor_point.1) =
        (-s.anchor_point.2 + s.surface.height, s.anchor_point.1 + 0)
    simp only [Prod.mk.injEq]
    constructor <;> ring
  · show (s.anchor_point.2, s.surface.width - s.anchor_point.1) =
        (s.anchor_point.2 + 0, -s.anchor_point.1 + s.surface.width)
    simp only [Prod.mk.injEq]
    constructor <;> ring

/-- C6 counterexample: with the drag flag false, `update_dragtouch` does
not leave the state unchanged — it sets the drag flag and moves the
target point. -/
theorem C6_counterexample :
    let s : ViewerState := ⟨none, ⟨100, 100⟩, 1, (0, 0), (0, 0), false, false, 1,
      (100, 100), 0⟩
    s.in_dragtouch = false ∧
      (update_dragtouch (0, 5, 7) s).target_point ≠ s.target_point ∧
      (update_dragtouch (0, 5, 7) s).in_dragtouch ≠ s.in_dragtouch := by
  simp only [update_dragtouch, start_dragtouch, queue_draw]
  norm_num

/-- C6 (amended): with no drag gesture active, a drag-update event does
not leave the state unchanged; it starts a new drag gesture — behaving
exactly as `start_dragtouch` — setting the drag flag and the target
point, while zoom, zoom-touch flag, pinch scale and surface are
unchanged. -/
theorem C6_update_dragtouch_restarts (coords : ℚ × ℚ × ℚ) (s : ViewerState)
    (h : s.in_dragtouch = false) :
    update_dragtouch coords s = start_dragtouch coords s ∧
    (update_dragtouch coords s).in_dragtouch = true ∧
    (update_dragtouch coords s).target_point = (coords.2.1, coords.2.2) ∧
    (update_dragtouch coords s).zoom = s.zoom ∧
    (update_dragtouch coords s).in_zoomtouch = s.in_zoomtouch ∧
    (update_dragtouch coords s).zoomtouch_scale = s.zoomtouch_scale ∧
    (update_dragtouch coords s).surface = s.surface := by
  simp [update_dragtouch, start_dragtouch, queue_draw, h]

/-- Witness for C6 (amended) at a concrete non-dragging state. -/
theorem C6_update_dragtouch_restarts_witness :
    let s : ViewerState := ⟨none, ⟨40, 30⟩, 1, (0, 0), (0, 0), false, false, 1,
      (40, 30), 0⟩
    update_dragtouch (0, 5, 7) s = start_dragtouch (0, 5, 7) s ∧
    (update_dragtouch (0, 5, 7) s).in_dragtouch = true ∧
    (update_dragtouch (0, 5, 7) s).target_point = (5, 7) ∧
    (update_dragtouch (0, 5, 7) s).zoom = s.zoom ∧
    (update_dragtouch (0, 5, 7) s).in_zoomtouch = s.in_zoomtouch ∧
    (update_dragtouch (0, 5, 7) s).zoomtouch_scale = s.zoomtouch_scale ∧
    (update_dragtouch (0, 5, 7) s).surface = s.surface := by
  intro s
  exact C6_update_dragtouch_restarts (0, 5, 7) s rfl

/-- C7: `set_file_location` stores the path and requests a redraw, and
changes nothing else — surface, zoom, anchor point, target point, gesture
flags, pending pinch scale, and requested size are unchanged. -/
theorem C7_set_file_location_passthrough (l : String) (s : ViewerState) :
    (set_file_location l s).file_location = some l ∧
    (set_file_location l s).redraws = s.redraws + 1 ∧
    (set_file_location l s).surface = s.surface ∧
    (set_file_location l s).zoom = s.zoom ∧
    (set_file_location l s).anchor_point = s.anchor_point ∧
    (set_file_location l s).target_point = s.target_point ∧
    (set_file_location l s).in_dragtouch = s.in_dragtouch ∧
    (set_file_location l s).in_zoomtouch = s.in_zoomtouch ∧
    (set_file_location l s).zoomtouch_scale = s.zoomtouch_scale ∧
    (set_file_location l s).size_request = s.size_request := by
  simp [set_file_location, queue_draw]

/-- C10: `start_zoomtouch` sets the zoom-touch flag, clears the drag
flag, resets the pending pinch scale to 1 and leaves the zoom factor
unchanged. -/
theorem C10_start_zoomtouch_replaces_drag (center : ℚ × ℚ × ℚ)
    (alloc : Allocation) (s : ViewerState) :
    (start_zoomtouch center alloc s).in_zoomtouch = true ∧
    (start_zoomtouch center alloc s).in_dragtouch = false ∧
    (start_zoomtouch center alloc s).zoomtouch_scale = 1 ∧
    (start_zoomtouch center alloc s).zoom = s.zoom := by
  simp [start_zoomtouch, queue_draw]

/-- The zoom stored by `zoom_to_fit`: the best-fit ratio when the image
exceeds the allocation, otherwise 1. -/
theorem zoom_to_fit_zoom (alloc : Allocation) (s : ViewerState) :
    (zoom_to_fit alloc s).zoom =
      if alloc.width < s.surface.width ∨ alloc.height < s.surface.height then
        min (alloc.width / s.surface.width) (alloc.height / s.surface.height)
      else 1 := by
  simp only [zoom_to_fit, queue_draw, _center_anchor_point, _center_target_point,
    do_set_zoom_zoom]

/-- C2 counterexample: from the in-range zoom 1, `zoom_to_fit` with a
1×1 allocation and a 100×100 surface stores zoom 1/100 < ZOOM_MIN, so
not every zoom-changing operation keeps the zoom in [0.05, 4.0]. -/
theorem C2_counterexample :
    let s : ViewerState := ⟨none, ⟨100, 100⟩, 1, (3, 4), (5, 6), false, false, 1,
      (100, 100), 0⟩
    ZOOM_MIN ≤ s.zoom ∧ s.zoom ≤ ZOOM_MAX ∧
      (zoom_to_fit ⟨0, 0, 1, 1⟩ s).zoom < ZOOM_MIN := by
  simp only [zoom_to_fit_zoom]
  norm_num [ZOOM_MIN, ZOOM_MAX]

/-- C2 (amended): from a zoom in [ZOOM_MIN, ZOOM_MAX], the operations
set_zoom, zoom_in, zoom_out, zoom_original and finish_zoomtouch keep the
zoom in [ZOOM_MIN, ZOOM_MAX].  zoom_to_fit is the exception: it can
store a zoom below ZOOM_MIN (see the counterexample), though for a
positive surface it never exceeds ZOOM_MAX. -/
theorem C2_zoom_range_invariant (alloc : Allocation) (s : ViewerState) (z : ℚ)
    (h1 : ZOOM_MIN ≤ s.zoom) (h2 : s.zoom ≤ ZOOM_MAX)
    (hw : 0 < s.surface.width) (hh : 0 < s.surface.height) :
    (ZOOM_MIN ≤ (set_zoom z s).zoom ∧ (set_zoom z s).zoom ≤ ZOOM_MAX) ∧
    (ZOOM_MIN ≤ (zoom_in s).zoom ∧ (zoom_in s).zoom ≤ ZOOM_MAX) ∧
    (ZOOM_MIN ≤ (zoom_out alloc s).zoom ∧ (zoom_out alloc s).zoom ≤ ZOOM_MAX) ∧
    (ZOOM_MIN ≤ (zoom_original alloc s).zoom ∧
      (zoom_original alloc s).zoom ≤ ZOOM_MAX) ∧
    (ZOOM_MIN ≤ (finish_zoomtouch alloc s).zoom ∧
      (finish_zoomtouch alloc s).zoom ≤ ZOOM_MAX) ∧
    (zoom_to_fit alloc s).zoom ≤ ZOOM_MAX := by
  have hstep : (0 : ℚ) < ZOOM_STEP := by norm_num [ZOOM_STEP]
  refine ⟨?_, ?_, ?_, ?_, ?_, ?_⟩
  · simp only [set_zoom]
    split
    · exact ⟨h1, h2⟩
    · rename_i h
      push_neg at h
      simpa using h
  · simp only [zoom_in]
    split
    · exact ⟨h1, h2⟩
    · rename_i h
      simp [can_zoom_in] at h
      simp only [do_set_zoom_zoom]
      norm_num [ZOOM_MIN, ZOOM_MAX, ZOOM_STEP] at h1 h2 h ⊢
      constructor <;> linarith
  · simp only [zoom_out]
    split
    · exact ⟨h1, h2⟩
    · rename_i h
      simp [can_zoom_out] at h
      simp only [center_if_small_zoom, do_set_zoom_zoom]
      norm_num [ZOOM_MIN, ZOOM_MAX, ZOOM_STEP] at h1 h2 h ⊢
      constructor <;> linarith
  · simp only [zoom_original, center_if_small_zoom, do_set_zoom_zoom]
    norm_num [ZOOM_MIN, ZOOM_MAX]
  · simp only [finish_zoomtouch, center_if_small_zoom, do_set_zoom_zoom]
    split
    · norm_num [ZOOM_MIN, ZOOM_MAX]
    · split
      · norm_num [ZOOM_MIN, ZOOM_MAX]
      · rename_i hA hB
        exact ⟨not_lt.mp hA, not_lt.mp hB⟩
  · rw [zoom_to_fit_zoom]
    split
    · rename_i hcond
      have h4 : (1 : ℚ) ≤ ZOOM_MAX := by norm_num [ZOOM_MAX]
      rcases hcond with hcw | hch
      · have hd : alloc.width / s.surface.width < 1 := (div_lt_one hw).mpr hcw
        have hm := min_le_left (alloc.width / s.surface.width)
          (alloc.height / s.surface.height)
        linarith
      · have hd : alloc.height / s.surface.height < 1 := (div_lt_one hh).mpr hch
        have hm := min_le_right (alloc.width / s.surface.width)
          (alloc.height / s.surface.height)
        linarith
    · norm_num [ZOOM_MAX]

/-- Witness for C2 (amended) at zoom 1, request 2, a 10×10 surface and a
500×500 allocation. -/
theorem C2_zoom_range_invariant_witness :
    let alloc : Allocation := ⟨0, 0, 500, 500⟩
    let s : ViewerState := ⟨none, ⟨10, 10⟩, 1, (3, 4), (5, 6), false, false, 1,
      (10, 10), 0⟩
    (ZOOM_MIN ≤ (set_zoom 2 s).zoom ∧ (set_zoom 2 s).zoom ≤ ZOOM_MAX) ∧
    (ZOOM_MIN ≤ (zoom_in s).zoom ∧ (zoom_in s).zoom ≤ ZOOM_MAX) ∧
    (ZOOM_MIN ≤ (zoom_out alloc s).zoom ∧ (zoom_out alloc s).zoom ≤ ZOOM_MAX) ∧
    (ZOOM_MIN ≤ (zoom_original alloc s).zoom ∧
      (zoom_original alloc s).zoom ≤ ZOOM_MAX) ∧
    (ZOOM_MIN ≤ (finish_zoomtouch alloc s).zoom ∧
      (finish_zoomtouch alloc s).zoom ≤ ZOOM_MAX) ∧
    (zoom_to_fit alloc s).zoom ≤ ZOOM_MAX := by
  intro alloc s
  exact C2_zoom_range_invariant alloc s 2
    (by show ZOOM_MIN ≤ (1 : ℚ); norm_num [ZOOM_MIN])
    (by show (1 : ℚ) ≤ ZOOM_MAX; norm_num [ZOOM_MAX])
    (by show (0 : ℚ) < 10; norm_num)
    (by show (0 : ℚ) < 10; norm_num)

/-- C8: rotating clockwise then anticlockwise, or anticlockwise then
clockwise, restores the surface width and height and the anchor point,
and leaves zoom and target point untouched. -/
theorem C8_rotate_roundtrip (s : ViewerState)
    (ha0 : 0 ≤ s.anchor_point.1) (ha1 : s.anchor_point.1 ≤ s.surface.width)
    (ha2 : 0 ≤ s.anchor_point.2) (ha3 : s.anchor_point.2 ≤ s.surface.height) :
    (rotate_anticlockwise (rotate_clockwise s)).surface.width = s.surface.width ∧
    (rotate_anticlockwise (rotate_clockwise s)).surface.height = s.surface.height ∧
    (rotate_anticlockwise (rotate_clockwise s)).anchor_point = s.anchor_point ∧
    (rotate_anticlockwise (rotate_clockwise s)).zoom = s.zoom ∧
    (rotate_anticlockwise (rotate_clockwise s)).target_point = s.target_point ∧
    (rotate_clockwise (rotate_anticlockwise s)).surface.width = s.surface.width ∧
    (rotate_clockwise (rotate_anticlockwise s)).surface.height = s.surface.height ∧
    (rotate_clockwise (rotate_anticlockwise s)).anchor_point = s.anchor_point ∧
    (rotate_clockwise (rotate_anticlockwise s)).zoom = s.zoom ∧
    (rotate_clockwise (rotate_anticlockwise s)).target_point = s.target_point := by
  refine ⟨rfl, rfl, ?_, rfl, rfl, rfl, rfl, ?_, rfl, rfl⟩
  · rw [Prod.ext_iff]
    refine ⟨rfl, ?_⟩
    show s.surface.height - (s.surface.height - s.anchor_point.2) = s.anchor_point.2
    ring
  · rw [Prod.ext_iff]
    refine ⟨?_, rfl⟩
    show s.surface.width - (s.surface.width - s.anchor_point.1) = s.anchor_point.1
    ring

/-- Witness for C8 at a 40×30 surface with anchor (5, 6). -/
theorem C8_rotate_roundtrip_witness :
    let s : ViewerState := ⟨none, ⟨40, 30⟩, 1, (3, 4), (5, 6), false, false, 1,
      (40, 30), 0⟩
    (rotate_anticlockwise (rotate_clockwise s)).surface.width = s.surface.width ∧
    (rotate_anticlockwise (rotate_clockwise s)).surface.height = s.surface.height ∧
    (rotate_anticlockwise (rotate_clockwise s)).anchor_point = s.anchor_point ∧
    (rotate_anticlockwise (rotate_clockwise s)).zoom = s.zoom ∧
    (rotate_anticlockwise (rotate_clockwise s)).target_point = s.target_point ∧
    (rotate_clockwise (rotate_anticlockwise s)).surface.width = s.surface.width ∧
    (rotate_clockwise (rotate_anticlockwise s)).surface.height = s.surface.height ∧
    (rotate_clockwise (rotate_anticlockwise s)).anchor_point = s.anchor_point ∧
    (rotate_clockwise (rotate_anticlockwise s)).zoom = s.zoom ∧
    (rotate_clockwise (rotate_anticlockwise s)).target_point = s.target_point := by
  intro s
  exact C8_rotate_roundtrip s
    (by show (0 : ℚ) ≤ 5; norm_num)
    (by show (5 : ℚ) ≤ 40; norm_num)
    (by show (0 : ℚ) ≤ 6; norm_num)
    (by show (6 : ℚ) ≤ 30; norm_num)

/-- If the result of `_center_if_small` fits the allocation then it is
centered: the centering condition of line 100 is exactly `fits` on the
input state, and the operation changes neither surface nor zoom. -/
theorem center_if_small_centers (alloc : Allocation) (s : ViewerState)
    (h : fits alloc (_center_if_small alloc s)) :
    centered alloc (_center_if_small alloc s) := by
  have hs : s.surface.width * s.zoom ≤ alloc.width ∧
      s.surface.height * s.zoom ≤ alloc.height := by
    simpa [fits] using h
  simp only [_center_if_small]
  rw [if_pos hs]
  exact ⟨rfl, rfl⟩

/-- C9 counterexample: at minimal zoom `zoom_out` refuses to zoom and
returns without recentering, even though the scaled image fits the
allocation and the target point is away from the center. -/
theorem C9_counterexample :
    let alloc : Allocation := ⟨0, 0, 100, 100⟩
    let s : ViewerState := ⟨none, ⟨10, 10⟩, 1/20, (3, 4), (5, 6), false, false, 1,
      (0, 0), 0⟩
    (zoom_out alloc s).surface.width * (zoom_out alloc s).zoom ≤ alloc.width ∧
    (zoom_out alloc s).surface.height * (zoom_out alloc s).zoom ≤ alloc.height ∧
    (zoom_out alloc s).target_point ≠ (alloc.width / 2, alloc.height / 2) := by
  simp only [zoom_out, can_zoom_out, ZOOM_MIN, ZOOM_STEP]
  norm_num [Prod.ext_iff]

/-- C9 (amended): after zoom_original, finish_dragtouch or
finish_zoomtouch — and after a zoom_out that actually zooms out
(can_zoom_out holds; a refused zoom_out recenters nothing, see the
counterexample) — if the scaled image fits the allocation in both
dimensions then the target point is the allocation center and the anchor
point is the surface center. -/
theorem C9_recenter_when_fits (alloc : Allocation) (s : ViewerState) :
    (can_zoom_out s = true → fits alloc (zoom_out alloc s) →
      centered alloc (zoom_out alloc s)) ∧
    (fits alloc (zoom_original alloc s) →
      centered alloc (zoom_original alloc s)) ∧
    (fits alloc (finish_dragtouch alloc s) →
      centered alloc (finish_dragtouch alloc s)) ∧
    (fits alloc (finish_zoomtouch alloc s) →
      centered alloc (finish_zoomtouch alloc s)) := by
  refine ⟨fun hc h => ?_, fun h => ?_, fun h => ?_, fun h => ?_⟩
  · have hz : zoom_out alloc s =
        _center_if_small alloc (_do_set_zoom (s.zoom - ZOOM_STEP) s) := by
      simp [zoom_out, hc]
    rw [hz] at h ⊢
    exact center_if_small_centers _ _ h
  · simp only [zoom_original] at h ⊢
    exact center_if_small_centers _ _ h
  · simp only [finish_dragtouch] at h ⊢
    exact center_if_small_centers _ _ h
  · simp only [finish_zoomtouch] at h ⊢
    exact center_if_small_centers _ _ h

/-- Witness for C9 (amended) at zoom 1, a 10×10 surface and a 100×100
allocation. -/
theorem C9_recenter_when_fits_witness :
    centered ⟨0, 0, 100, 100⟩ (zoom_out ⟨0, 0, 100, 100⟩
      ⟨none, ⟨10, 10⟩, 1, (3, 4), (5, 6), false, false, 1, (10, 10), 0⟩) ∧
    centered ⟨0, 0, 100, 100⟩ (zoom_original ⟨0, 0, 100, 100⟩
      ⟨none, ⟨10, 10⟩, 1, (3, 4), (5, 6), false, false, 1, (10, 10), 0⟩) ∧
    centered ⟨0, 0, 100, 100⟩ (finish_dragtouch ⟨0, 0, 100, 100⟩
      ⟨none, ⟨10, 10⟩, 1, (3, 4), (5, 6), false, false, 1, (10, 10), 0⟩) ∧
    centered ⟨0, 0, 100, 100⟩ (finish_zoomtouch ⟨0, 0, 100, 100⟩
      ⟨none, ⟨10, 10⟩, 1, (3, 4), (5, 6), false, false, 1, (10, 10), 0⟩) := by
  refine ⟨(C9_recenter_when_fits _ _).1 ?_ ?_, (C9_recenter_when_fits _ _).2.1 ?_,
    (C9_recenter_when_fits _ _).2.2.1 ?_, (C9_recenter_when_fits _ _).2.2.2 ?_⟩
  · norm_num [can_zoom_out, ZOOM_MIN, ZOOM_STEP]
  · norm_num [fits, zoom_out, can_zoom_out, ZOOM_MIN, ZOOM_STEP]
  · norm_num [fits, zoom_original]
  · norm_num [fits, finish_dragtouch]
  · norm_num [fits, finish_zoomtouch, ZOOM_MIN, ZOOM_MAX]

end ImageView
